import Mathlib

/-!
Verification of the discourse-mcp HTTP transport, capability registry,
access guard and search tool against their natural-language specification.

Each definition is a shallow embedding of the corresponding TypeScript
function (file and symbol named in its doc comment).  Stateful code is
embedded as explicit state passing; the sequence of fetch outcomes a
logical request observes is passed in as a list, one element per attempt.
-/

namespace DiscourseMcp

/-! ## Retry layer (`src/http/client.ts`, `withRetries`, `executeRequest`) -/

/-- Outcome of a single fetch attempt as seen by the retry wrapper: either a
successful value, or a thrown error whose optional `status` field is what
`withRetries` inspects (`e?.status`); errors other than `HttpError` carry no
status, hence `Option Nat`. -/
inductive AttemptOutcome where
  | ok (v : Nat)
  | err (status : Option Nat)
deriving DecidableEq

/-- The retry guard from `withRetries` (client.ts line 186):
`status === 429 || (status && status >= 500)`.  JavaScript truthiness of
`status &&` makes a zero status falsy. -/
def retryableStatus : Option Nat → Bool
  | some st => st == 429 || (!(st == 0) && decide (500 ≤ st))
  | Option.none => false

/-- Result of running `withRetries` to completion: the value returned or the
error finally re-raised (identified by its status field), how many attempts
were made, and the sequence of backoff delays slept between attempts. -/
structure RetryRun where
  result : Except (Option Nat) Nat
  attemptsMade : Nat
  delaysSlept : List Nat

/-- Embeds `withRetries` (client.ts lines 178-200), with the mutable loop state
(`attempt`, `delay`) made explicit and the attempt outcomes supplied as a
list.  Returns `none` only when the supplied outcome list is shorter than the
number of attempts the code would make. -/
def withRetriesAux (retries : Nat) : Nat → Nat → List AttemptOutcome → Option RetryRun
  | _, _, [] => Option.none
  | attempt, _, AttemptOutcome.ok v :: _ => some ⟨Except.ok v, attempt + 1, []⟩
  | attempt, delay, AttemptOutcome.err s :: rest =>
    if attempt < retries - 1 && retryableStatus s then
      match withRetriesAux retries (attempt + 1) (delay * 2) rest with
      | Option.none => Option.none
      | some run => some ⟨run.result, run.attemptsMade, delay :: run.delaysSlept⟩
    else
      some ⟨Except.error s, attempt + 1, []⟩

/-- Embeds `withRetries` entered as the code does: `attempt = 0`, `delay = 250`. -/
def withRetries (retries : Nat) (outcomes : List AttemptOutcome) : Option RetryRun :=
  withRetriesAux retries 0 250 outcomes

/-- Embeds `executeRequest` (client.ts line 170): `const maxRetries = allowRetries ? 3 : 1`. -/
def executeRequestMaxRetries (allowRetries : Bool) : Nat :=
  if allowRetries then 3 else 1

/-- The retry run performed by `executeRequest` for a given `allowRetries` flag. -/
def executeRequestRun (allowRetries : Bool) (outcomes : List AttemptOutcome) : Option RetryRun :=
  withRetries (executeRequestMaxRetries allowRetries) outcomes

/-- A plain JSON request: `executeRequest` is called with `allowRetries`
defaulted to `true` (client.ts line 105). -/
def requestRun (outcomes : List AttemptOutcome) : Option RetryRun :=
  executeRequestRun true outcomes

/-- A multipart request: `requestMultipart` (client.ts line 102) calls
`executeRequest` with `allowRetries = false`. -/
def requestMultipartRun (outcomes : List AttemptOutcome) : Option RetryRun :=
  executeRequestRun false outcomes

/-- Claim C1: through `executeRequest` with retries allowed, an attempt failing
with status 429 or any status at least 500 is retried, up to 3 total attempts,
with inter-attempt delays of 250ms then 500ms; an attempt failing with any
other status (e.g. 404) or with no status at all is never retried and its
error propagates immediately as the call's result. -/
theorem c1_statusRetryPolicy
    (r r' s₃ n : Option Nat) (v : Nat) (rest : List AttemptOutcome)
    (hr : retryableStatus r = true) (hr' : retryableStatus r' = true)
    (hn : retryableStatus n = false) :
    requestRun (AttemptOutcome.err n :: rest) = some ⟨Except.error n, 1, []⟩
    ∧ requestRun (AttemptOutcome.err r :: AttemptOutcome.ok v :: rest)
        = some ⟨Except.ok v, 2, [250]⟩
    ∧ requestRun (AttemptOutcome.err r :: AttemptOutcome.err r' :: AttemptOutcome.ok v :: rest)
        = some ⟨Except.ok v, 3, [250, 500]⟩
    ∧ requestRun (AttemptOutcome.err r :: AttemptOutcome.err r' :: AttemptOutcome.err s₃ :: rest)
        = some ⟨Except.error s₃, 3, [250, 500]⟩
    ∧ (∀ st : Nat, retryableStatus (some st) = true ↔ st = 429 ∨ 500 ≤ st)
    ∧ retryableStatus Option.none = false := by
  refine ⟨?_, ?_, ?_, ?_, ?_, rfl⟩
  · simp [requestRun, executeRequestRun, executeRequestMaxRetries, withRetries,
      withRetriesAux, hn]
  · simp [requestRun, executeRequestRun, executeRequestMaxRetries, withRetries,
      withRetriesAux, hr]
  · simp [requestRun, executeRequestRun, executeRequestMaxRetries, withRetries,
      withRetriesAux, hr, hr']
  · simp [requestRun, executeRequestRun, executeRequestMaxRetries, withRetries,
      withRetriesAux, hr, hr']
  · intro st
    simp only [retryableStatus, Bool.or_eq_true, beq_iff_eq, Bool.and_eq_true,
      Bool.not_eq_true', beq_eq_false_iff_ne, ne_eq, decide_eq_true_eq]
    omega

/-- Witness for C1 at concrete inputs: a 404 failure is not retried. -/
theorem c1_statusRetryPolicy_witness :
    requestRun [AttemptOutcome.err (some 404)]
      = some ⟨Except.error (some 404), 1, []⟩ :=
  (c1_statusRetryPolicy (some 500) (some 429) (some 503) (some 404) 0 []
    (by decide) (by decide) (by decide)).1

/-- Claim C4: a multipart upload makes at most one attempt — `requestMultipart`
passes `allowRetries = false`, so `maxRetries = 1` and any failure of the
first attempt (any status, including 429 and 5xx, or no status) propagates
immediately with no retry and no backoff sleep. -/
theorem c4_multipartNeverRetries (s : Option Nat) (rest : List AttemptOutcome) :
    executeRequestMaxRetries false = 1
    ∧ requestMultipartRun (AttemptOutcome.err s :: rest)
        = some ⟨Except.error s, 1, []⟩ := by
  refine ⟨rfl, ?_⟩
  simp [requestMultipartRun, executeRequestRun, executeRequestMaxRetries,
    withRetries, withRetriesAux]

/-! ## Response cache (`src/http/client.ts`, `HttpClient.getCached`) -/

/-- One cache entry: `{ value, expiresAt }` (client.ts line 26). -/
structure CacheEntry (α : Type) where
  value : α
  expiresAt : Nat
deriving DecidableEq

/-- The in-memory cache `Map<string, {value, expiresAt}>`, embedded as an
association list keyed by the fully resolved URL. -/
def Cache (α : Type) : Type := List (String × CacheEntry α)

/-- Embeds `Map.get`: first binding for the key, if any. -/
def cacheGet {α : Type} : Cache α → String → Option (CacheEntry α)
  | [], _ => Option.none
  | (k, e) :: rest, url => if k == url then some e else cacheGet rest url

/-- Embeds `Map.set`: replace the binding for the key in place, or append it. -/
def cacheSet {α : Type} : Cache α → String → CacheEntry α → Cache α
  | [], url, e => [(url, e)]
  | (k, e') :: rest, url, e =>
    if k == url then (url, e) :: rest else (k, e') :: cacheSet rest url e

/-- Embeds `HttpClient.getCached` (client.ts lines 56-64) with the state made
explicit: given the current cache, the resolved URL, `ttlMs`, the current
clock `now`, and the outcome the underlying GET would produce, it returns the
call's result, the cache afterwards, and how many upstream GETs were issued.
A thrown GET error propagates before `cache.set` runs, so an error leaves the
cache unchanged. -/
def getCached {α : Type} (cache : Cache α) (url : String) (ttlMs now : Nat)
    (upstream : Except String α) : Except String α × Cache α × Nat :=
  match cacheGet cache url with
  | some entry =>
    if now < entry.expiresAt then (Except.ok entry.value, cache, 0)
    else
      match upstream with
      | Except.ok v => (Except.ok v, cacheSet cache url ⟨v, now + ttlMs⟩, 1)
      | Except.error e => (Except.error e, cache, 1)
  | Option.none =>
    match upstream with
    | Except.ok v => (Except.ok v, cacheSet cache url ⟨v, now + ttlMs⟩, 1)
    | Except.error e => (Except.error e, cache, 1)

theorem cacheGet_cacheSet_self {α : Type} (c : Cache α) (url : String)
    (e : CacheEntry α) : cacheGet (cacheSet c url e) url = some e := by
  induction c with
  | nil => simp [cacheSet, cacheGet]
  | cons kv rest ih =>
    obtain ⟨k, e'⟩ := kv
    by_cases h : k == url
    · simp [cacheSet, cacheGet, h]
    · simp only [cacheSet, cacheGet, h]
      simp only [Bool.false_eq_true, if_false]
      simp [cacheGet, h, ih]

/-- Claim C3: `getCached` returns the stored value with no upstream request
while a cache entry is unexpired; otherwise it performs one GET, stores the
result with expiry `now + ttlMs`, and returns it — two calls within the TTL
window perform exactly one upstream call in total, a call at or after expiry
performs a second one, and a failed GET returns the error and leaves the
cache map unchanged. -/
theorem c3_getCachedSemantics {α : Type} (c : Cache α) (url : String)
    (ttlMs now₀ now₁ now₂ : Nat) (v v₂ : α) (e : String)
    (entry : CacheEntry α)
    (hhit : cacheGet c url = some entry) (hfresh : now₀ < entry.expiresAt)
    (hwin : now₁ < now₀ + ttlMs) (hexp : now₀ + ttlMs ≤ now₂) :
    (∀ up, getCached c url ttlMs now₀ up
        = (Except.ok entry.value, c, 0))
    ∧ (∀ c' : Cache α, cacheGet c' url = Option.none →
        getCached c' url ttlMs now₀ (Except.ok v)
          = (Except.ok v, cacheSet c' url ⟨v, now₀ + ttlMs⟩, 1)
        ∧ getCached c' url ttlMs now₀ (Except.error e)
          = (Except.error e, c', 1))
    ∧ getCached (cacheSet c url ⟨v, now₀ + ttlMs⟩) url ttlMs now₁ (Except.ok v₂)
        = (Except.ok v, cacheSet c url ⟨v, now₀ + ttlMs⟩, 0)
    ∧ getCached (cacheSet c url ⟨v, now₀ + ttlMs⟩) url ttlMs now₂ (Except.ok v₂)
        = (Except.ok v₂,
            cacheSet (cacheSet c url ⟨v, now₀ + ttlMs⟩) url ⟨v₂, now₂ + ttlMs⟩, 1)
    ∧ getCached (cacheSet c url ⟨v, now₀ + ttlMs⟩) url ttlMs now₂ (Except.error e)
        = (Except.error e, cacheSet c url ⟨v, now₀ + ttlMs⟩, 1) := by
  refine ⟨?_, ?_, ?_, ?_, ?_⟩
  · intro up
    simp [getCached, hhit, hfresh]
  · intro c' hmiss
    exact ⟨by simp [getCached, hmiss], by simp [getCached, hmiss]⟩
  · simp [getCached, cacheGet_cacheSet_self, hwin]
  · have h2 : ¬ now₂ < now₀ + ttlMs := by omega
    simp [getCached, cacheGet_cacheSet_self, h2]
  · have h2 : ¬ now₂ < now₀ + ttlMs := by omega
    simp [getCached, cacheGet_cacheSet_self, h2]

/-- Witness for C3 at concrete inputs. -/
theorem c3_getCachedSemantics_witness :
    getCached ([("https://example.com/a.json", ⟨7, 30⟩)] : Cache Nat)
        "https://example.com/a.json" 20 10 (Except.ok 9)
      = (Except.ok 7, [("https://example.com/a.json", ⟨7, 30⟩)], 0) :=
  (c3_getCachedSemantics ([("https://example.com/a.json", (⟨7, 30⟩ : CacheEntry Nat))]
      : Cache Nat)
    "https://example.com/a.json" 20 10 25 30 7 9 "err" ⟨7, 30⟩
    (by decide) (by decide) (by decide) (by decide)).1 (Except.ok 9)

/-! ## Header composition (`src/http/client.ts`, `HttpClient.headers`,
`HttpClient.request`, `HttpClient.requestMultipart`) -/

/-- The `AuthMode` union (client.ts lines 3-6).  Optional string fields are
`Option String`; JavaScript truthiness of `if (this.opts.auth.username)`
treats the empty string like an absent one. -/
inductive AuthMode where
  | noAuth
  | api_key (key : String) (username : Option String)
  | user_api_key (key : String) (client_id : Option String)
deriving DecidableEq

/-- JavaScript truthiness of an optional string. -/
def truthyStr : Option String → Bool
  | Option.none => false
  | some s => !(s == "")

/-- The base64 alphabet used by `Buffer.toString` with base64 encoding. -/
def base64Alphabet : List Char :=
  "ABCDEFGHIJKLMNOPQRSTUVWXYZabcdefghijklmnopqrstuvwxyz0123456789+/".toList

def base64Digit (n : Nat) : Char := base64Alphabet.getD n 'A'

/-- RFC 4648 base64 of a byte list, with padding, as `Buffer.toString`
produces for the base64 encoding. -/
def base64EncodeBytes : List Nat → List Char
  | [] => []
  | [a] => [base64Digit (a / 4), base64Digit (a % 4 * 16), '=', '=']
  | [a, b] =>
    [base64Digit (a / 4), base64Digit (a % 4 * 16 + b / 16),
     base64Digit (b % 16 * 4), '=']
  | a :: b :: c :: rest =>
    base64Digit (a / 4) :: base64Digit (a % 4 * 16 + b / 16)
      :: base64Digit (b % 16 * 4 + c / 64) :: base64Digit (c % 64)
      :: base64EncodeBytes rest

/-- UTF-8 bytes of one character. -/
def utf8BytesOfChar (c : Char) : List Nat :=
  let n := c.toNat
  if n < 128 then [n]
  else if n < 2048 then [192 + n / 64, 128 + n % 64]
  else if n < 65536 then [224 + n / 4096, 128 + n / 64 % 64, 128 + n % 64]
  else [240 + n / 262144, 128 + n / 4096 % 64, 128 + n / 64 % 64, 128 + n % 64]

/-- UTF-8 bytes of a string, as `Buffer.from` produces for a string input. -/
def utf8Bytes (s : String) : List Nat :=
  (s.data.map utf8BytesOfChar).flatten

/-- The Basic Authorization value (client.ts lines 44-47):
the literal "Basic " followed by the base64 of user, a colon, and pass. -/
def basicAuthValue (user pass : String) : String :=
  "Basic " ++ String.mk (base64EncodeBytes (utf8Bytes (user ++ ":" ++ pass)))

def clientUserAgent : String :=
  "Discourse-MCP/0.x (+https://github.com/discourse/discourse-mcp)"

/-- Embeds `HttpClient.headers` (client.ts lines 32-50), as the ordered association
list the record `h` accumulates; all keys written are pairwise distinct so
insertion order equals append order. -/
def composedHeaders (auth : AuthMode) (httpBasicAuth : Option (String × String)) :
    List (String × String) :=
  [("User-Agent", clientUserAgent), ("Accept", "application/json")]
  ++ (match auth with
      | AuthMode.noAuth => []
      | AuthMode.api_key key username =>
        ("Api-Key", key)
          :: (if truthyStr username then [("Api-Username", username.getD "")] else [])
      | AuthMode.user_api_key key client_id =>
        ("User-Api-Key", key)
          :: (if truthyStr client_id
              then [("User-Api-Client-Id", client_id.getD "")] else []))
  ++ (match httpBasicAuth with
      | Option.none => []
      | some (user, pass) => [("Authorization", basicAuthValue user pass)])

/-- Lookup of a header value by exact key. -/
def headerLookup : List (String × String) → String → Option String
  | [], _ => Option.none
  | (k, v) :: rest, key => if k == key then some v else headerLookup rest key

def hasHeader (h : List (String × String)) (key : String) : Bool :=
  (headerLookup h key).isSome

/-- Claim C5: the composed base header set carries exactly the active primary
variant's headers — Api-Key (plus Api-Username iff a username is configured)
for the admin-style variant, User-Api-Key (plus User-Api-Client-Id iff a
client id is configured) for the user-scoped variant, neither for `noAuth` —
carries the Basic `Authorization` header iff HTTP Basic auth is configured,
independently of the variant, and never carries headers of two primary
variants at once. -/
theorem c5_headerVariants (auth : AuthMode)
    (basic : Option (String × String)) :
    (hasHeader (composedHeaders auth basic) "Api-Key"
        = (match auth with | AuthMode.api_key _ _ => true | _ => false))
    ∧ (hasHeader (composedHeaders auth basic) "Api-Username"
        = (match auth with
           | AuthMode.api_key _ username => truthyStr username
           | _ => false))
    ∧ (hasHeader (composedHeaders auth basic) "User-Api-Key"
        = (match auth with | AuthMode.user_api_key _ _ => true | _ => false))
    ∧ (hasHeader (composedHeaders auth basic) "User-Api-Client-Id"
        = (match auth with
           | AuthMode.user_api_key _ client_id => truthyStr client_id
           | _ => false))
    ∧ (hasHeader (composedHeaders auth basic) "Authorization" = basic.isSome)
    ∧ ¬(hasHeader (composedHeaders auth basic) "Api-Key" = true
        ∧ hasHeader (composedHeaders auth basic) "User-Api-Key" = true) := by
  obtain _ | ⟨key, username⟩ | ⟨key, client_id⟩ := auth <;>
    obtain _ | ⟨user, pass⟩ := basic
  · refine ⟨?_, ?_, ?_, ?_, ?_, ?_⟩ <;>
      simp [composedHeaders, hasHeader, headerLookup]
  · refine ⟨?_, ?_, ?_, ?_, ?_, ?_⟩ <;>
      simp [composedHeaders, hasHeader, headerLookup]
  · rcases h : truthyStr username <;>
      refine ⟨?_, ?_, ?_, ?_, ?_, ?_⟩ <;>
      simp [composedHeaders, hasHeader, headerLookup, h]
  · rcases h : truthyStr username <;>
      refine ⟨?_, ?_, ?_, ?_, ?_, ?_⟩ <;>
      simp [composedHeaders, hasHeader, headerLookup, h]
  · rcases h : truthyStr client_id <;>
      refine ⟨?_, ?_, ?_, ?_, ?_, ?_⟩ <;>
      simp [composedHeaders, hasHeader, headerLookup, h]
  · rcases h : truthyStr client_id <;>
      refine ⟨?_, ?_, ?_, ?_, ?_, ?_⟩ <;>
      simp [composedHeaders, hasHeader, headerLookup, h]

/-- Witness for C5 at a concrete credential configuration. -/
theorem c5_headerVariants_witness :
    hasHeader
      (composedHeaders (AuthMode.api_key "k" (some "system"))
        (some ("u", "p"))) "Api-Key" = true :=
  (c5_headerVariants (AuthMode.api_key "k" (some "system")) (some ("u", "p"))).1

/-- Record assignment `h[k] = v` on the header object: replace in place or
append.  Both plain assignment and one step of `Object.assign` do this. -/
def setHeader : List (String × String) → String → String → List (String × String)
  | [], k, v => [(k, v)]
  | (k', v') :: rest, k, v =>
    if k' == k then (k, v) :: rest else (k', v') :: setHeader rest k v

/-- Embeds `Object.assign(headers, extraHeaders)`: assign every extra pair in order. -/
def assignHeaders (h extra : List (String × String)) : List (String × String) :=
  extra.foldl (fun acc kv => setHeader acc kv.1 kv.2) h

/-- Embeds `delete headers["Content-Type"]`: drop every binding of the key. -/
def deleteHeader : List (String × String) → String → List (String × String)
  | [], _ => []
  | (k', v') :: rest, k =>
    if k' == k then deleteHeader rest k else (k', v') :: deleteHeader rest k

/-- Embeds `HttpClient.request` header construction (client.ts lines 82-90): base +
credential + Basic headers, then Content-Type `application/json` when a body
is present, then caller extra headers assigned last. -/
def requestHeaders (auth : AuthMode) (basic : Option (String × String))
    (hasBody : Bool) (extra : Option (List (String × String))) :
    List (String × String) :=
  let h := composedHeaders auth basic
  let h2 := if hasBody then setHeader h "Content-Type" "application/json" else h
  match extra with
  | some e => assignHeaders h2 e
  | Option.none => h2

/-- Embeds `HttpClient.requestMultipart` header construction (client.ts lines
93-103): base + credential + Basic headers, extra headers assigned, then
Content-Type deleted after the merge so the transport can set the multipart
boundary. -/
def requestMultipartHeaders (auth : AuthMode) (basic : Option (String × String))
    (extra : Option (List (String × String))) : List (String × String) :=
  let h := composedHeaders auth basic
  let h2 :=
    match extra with
    | some e => assignHeaders h e
    | Option.none => h
  deleteHeader h2 "Content-Type"

theorem headerLookup_setHeader_self (h : List (String × String)) (k v : String) :
    headerLookup (setHeader h k v) k = some v := by
  induction h with
  | nil => simp [setHeader, headerLookup]
  | cons kv rest ih =>
    obtain ⟨k', v'⟩ := kv
    by_cases hk : k' = k
    · subst hk
      simp [setHeader, headerLookup]
    · have hk' : (k' == k) = false := by simp [hk]
      simp [setHeader, hk', headerLookup, ih]

theorem headerLookup_setHeader_ne (h : List (String × String)) (k v key : String)
    (hne : (k == key) = false) :
    headerLookup (setHeader h k v) key = headerLookup h key := by
  induction h with
  | nil => simp [setHeader, headerLookup, hne]
  | cons kv rest ih =>
    obtain ⟨k', v'⟩ := kv
    by_cases hk : k' = k
    · subst hk
      simp [setHeader, headerLookup, hne]
    · have hk' : (k' == k) = false := by simp [hk]
      simp [setHeader, hk', headerLookup, ih]

theorem headerLookup_assignHeaders_absent (extra : List (String × String))
    (key : String) :
    ∀ h : List (String × String), (∀ kv ∈ extra, (kv.1 == key) = false) →
      headerLookup (assignHeaders h extra) key = headerLookup h key := by
  induction extra with
  | nil =>
    intro h _
    simp [assignHeaders]
  | cons kv rest ih =>
    intro h habs
    have h1 : (kv.1 == key) = false := habs kv (by simp)
    have h2 : ∀ kv' ∈ rest, (kv'.1 == key) = false :=
      fun kv' hm => habs kv' (by simp [hm])
    calc headerLookup (assignHeaders h (kv :: rest)) key
        = headerLookup (assignHeaders (setHeader h kv.1 kv.2) rest) key := by
          simp [assignHeaders]
      _ = headerLookup (setHeader h kv.1 kv.2) key := ih _ h2
      _ = headerLookup h key := headerLookup_setHeader_ne _ _ _ _ h1

theorem headerLookup_assignHeaders_last (h extra : List (String × String))
    (k v : String) :
    headerLookup (assignHeaders h (extra ++ [(k, v)])) k = some v := by
  simp only [assignHeaders, List.foldl_append, List.foldl_cons, List.foldl_nil]
  exact headerLookup_setHeader_self _ _ _

theorem headerLookup_deleteHeader_self (h : List (String × String))
    (key : String) :
    headerLookup (deleteHeader h key) key = Option.none := by
  induction h with
  | nil => simp [deleteHeader, headerLookup]
  | cons kv rest ih =>
    obtain ⟨k', v'⟩ := kv
    by_cases hk : k' = key
    · subst hk
      simp [deleteHeader, headerLookup, ih]
    · have hk' : (k' == key) = false := by simp [hk]
      simp [deleteHeader, hk', headerLookup, ih]

/-- Claim C6: caller-supplied extra headers are merged last and override any
previously composed header; on the multipart path the final header map never
contains Content-Type, even when the extra headers include one, because
Content-Type is stripped after the merge; on the JSON path Content-Type is
`application/json` whenever a body is present and the extra headers do not
override it. -/
theorem c6_extraHeadersMerge (auth : AuthMode) (basic : Option (String × String))
    (hasBody : Bool) (extra : List (String × String)) (k v : String)
    (hct : ∀ kv ∈ extra, (kv.1 == "Content-Type") = false) :
    headerLookup (requestHeaders auth basic hasBody (some (extra ++ [(k, v)]))) k
        = some v
    ∧ headerLookup
        (requestMultipartHeaders auth basic (some (extra ++ [(k, v)])))
        "Content-Type" = Option.none
    ∧ headerLookup (requestHeaders auth basic true (some extra)) "Content-Type"
        = some "application/json"
    ∧ headerLookup (requestMultipartHeaders auth basic Option.none)
        "Content-Type" = Option.none := by
  refine ⟨?_, ?_, ?_, ?_⟩
  · simp only [requestHeaders]
    exact headerLookup_assignHeaders_last _ _ _ _
  · simp only [requestMultipartHeaders]
    exact headerLookup_deleteHeader_self _ _
  · simp only [requestHeaders]
    rw [headerLookup_assignHeaders_absent extra "Content-Type" _ hct]
    simp only [if_true]
    exact headerLookup_setHeader_self _ _ _
  · simp only [requestMultipartHeaders]
    exact headerLookup_deleteHeader_self _ _

/-- Witness for C6 at a concrete request. -/
theorem c6_extraHeadersMerge_witness :
    headerLookup
      (requestHeaders AuthMode.noAuth Option.none true
        (some ([("Accept", "text/plain")] ++ [("X-Request-Id", "1")])))
      "X-Request-Id" = some "1" :=
  (c6_extraHeadersMerge AuthMode.noAuth Option.none true
    [("Accept", "text/plain")] "X-Request-Id" "1"
    (by intro kv hm; simp at hm; simp [hm])).1

/-! ## Capability registry (`src/tools/registry.ts`, `registerAllTools`, and
the per-tool register functions under `src/tools/builtin/`) -/

/-- Embeds `registerSelectSite` (select_site.ts): registers unconditionally; the
registrar decides whether to call it. -/
def registerSelectSite (_allowWrites : Bool) : List String :=
  ["discourse_select_site"]

/-- Embeds `registerSearch` (search.ts): read tool, no write gate. -/
def registerSearch (_allowWrites : Bool) : List String :=
  ["discourse_search"]

/-- Embeds `registerFilterTopics` (filter_topics.ts): read tool, no write gate. -/
def registerFilterTopics (_allowWrites : Bool) : List String :=
  ["discourse_filter_topics"]

/-- Embeds `registerReadTopic` (read_topic.ts): read tool, no write gate. -/
def registerReadTopic (_allowWrites : Bool) : List String :=
  ["discourse_read_topic"]

/-- Embeds `registerReadPost` (read_post.ts): read tool, no write gate. -/
def registerReadPost (_allowWrites : Bool) : List String :=
  ["discourse_read_post"]

/-- Embeds `registerGetUser` (get_user.ts): read tool, no write gate. -/
def registerGetUser (_allowWrites : Bool) : List String :=
  ["discourse_get_user"]

/-- Embeds `registerListUserPosts` (list_user_posts.ts): read tool, no write gate. -/
def registerListUserPosts (_allowWrites : Bool) : List String :=
  ["discourse_list_user_posts"]

/-- Embeds `registerListUsers` (list_users.ts): admin-only read tool; the registrar
calls it only when an admin api key is present. -/
def registerListUsers (_allowWrites : Bool) : List String :=
  ["discourse_list_users"]

/-- Embeds `registerGetChatMessages` (get_chat_messages.ts): read tool. -/
def registerGetChatMessages (_allowWrites : Bool) : List String :=
  ["discourse_get_chat_messages"]

/-- Embeds `registerGetDraft` (drafts.ts line 38): read tool, no write gate. -/
def registerGetDraft (_allowWrites : Bool) : List String :=
  ["discourse_get_draft"]

/-- Embeds `registerCreatePost` (create_post.ts line 6): returns without registering
when `allowWrites` is false. -/
def registerCreatePost (allowWrites : Bool) : List String :=
  if !allowWrites then [] else ["discourse_create_post"]

/-- Embeds `registerCreateUser` (create_user.ts line 7). -/
def registerCreateUser (allowWrites : Bool) : List String :=
  if !allowWrites then [] else ["discourse_create_user"]

/-- Embeds `registerCreateCategory` (create_category.ts line 6). -/
def registerCreateCategory (allowWrites : Bool) : List String :=
  if !allowWrites then [] else ["discourse_create_category"]

/-- Embeds `registerCreateTopic` (create_topic.ts line 7). -/
def registerCreateTopic (allowWrites : Bool) : List String :=
  if !allowWrites then [] else ["discourse_create_topic"]

/-- Embeds `registerUpdateUser` (update_user.ts line 7). -/
def registerUpdateUser (allowWrites : Bool) : List String :=
  if !allowWrites then [] else ["discourse_update_user"]

/-- Embeds `registerUploadFile` (upload_file.ts line 34). -/
def registerUploadFile (allowWrites : Bool) : List String :=
  if !allowWrites then [] else ["discourse_upload_file"]

/-- Embeds `registerSaveDraft` (drafts.ts line 95). -/
def registerSaveDraft (allowWrites : Bool) : List String :=
  if !allowWrites then [] else ["discourse_save_draft"]

/-- Embeds `registerDeleteDraft` (drafts.ts line 192). -/
def registerDeleteDraft (allowWrites : Bool) : List String :=
  if !allowWrites then [] else ["discourse_delete_draft"]

/-- Embeds `registerAllTools` (registry.ts lines 47-84) as the ordered list of tool
names registered: the registrar passes `allowWrites: false` literally to every
read tool and `opts.allowWrites` to every write tool, skips
`registerSelectSite` when `hideSelectSite` is set and `registerListUsers`
unless `hasAdminApiKey` is set. -/
def registerAllTools (allowWrites hideSelectSite hasAdminApiKey : Bool) :
    List String :=
  (if !hideSelectSite then registerSelectSite false else [])
  ++ registerSearch false
  ++ registerFilterTopics false
  ++ registerReadTopic false
  ++ registerReadPost false
  ++ registerGetUser false
  ++ registerListUserPosts false
  ++ (if hasAdminApiKey then registerListUsers false else [])
  ++ registerGetChatMessages false
  ++ registerGetDraft false
  ++ registerCreatePost allowWrites
  ++ registerCreateUser allowWrites
  ++ registerCreateCategory allowWrites
  ++ registerCreateTopic allowWrites
  ++ registerUpdateUser allowWrites
  ++ registerUploadFile allowWrites
  ++ registerSaveDraft allowWrites
  ++ registerDeleteDraft allowWrites

/-- The fixed read-tool set of the registry (its search/filter and read
sections, minus the admin-gated and selection tools). -/
def readToolNames : List String :=
  ["discourse_search", "discourse_filter_topics", "discourse_read_topic",
   "discourse_read_post", "discourse_get_user", "discourse_list_user_posts",
   "discourse_get_chat_messages", "discourse_get_draft"]

/-- The write-tagged tool set of the registry (its write section). -/
def writeToolNames : List String :=
  ["discourse_create_post", "discourse_create_user",
   "discourse_create_category", "discourse_create_topic",
   "discourse_update_user", "discourse_upload_file", "discourse_save_draft",
   "discourse_delete_draft"]

/-- Claim C2: for every flag combination, `registerAllTools` registers exactly
the read set, plus `discourse_select_site` iff `hideSelectSite` is false,
plus `discourse_list_users` iff an admin credential is present, plus every
write tool iff `allowWrites` is true; with `allowWrites = false` no
write-tagged tool is registered, and each write tool's own register function
independently registers nothing when `allowWrites` is false. -/
theorem c2_registrySetAlgebra (aw hide admin : Bool) (t : String) :
    (t ∈ registerAllTools aw hide admin ↔
      (t ∈ readToolNames
        ∨ (hide = false ∧ t = "discourse_select_site")
        ∨ (admin = true ∧ t = "discourse_list_users")
        ∨ (aw = true ∧ t ∈ writeToolNames)))
    ∧ (aw = false → t ∈ writeToolNames → t ∉ registerAllTools aw hide admin)
    ∧ registerCreatePost false = []
    ∧ registerCreateUser false = []
    ∧ registerCreateCategory false = []
    ∧ registerCreateTopic false = []
    ∧ registerUpdateUser false = []
    ∧ registerUploadFile false = []
    ∧ registerSaveDraft false = []
    ∧ registerDeleteDraft false = [] := by
  have hmain : t ∈ registerAllTools aw hide admin ↔
      (t ∈ readToolNames
        ∨ (hide = false ∧ t = "discourse_select_site")
        ∨ (admin = true ∧ t = "discourse_list_users")
        ∨ (aw = true ∧ t ∈ writeToolNames)) := by
    cases aw <;> cases hide <;> cases admin <;>
      simp [registerAllTools, registerSelectSite, registerSearch,
        registerFilterTopics, registerReadTopic, registerReadPost,
        registerGetUser, registerListUserPosts, registerListUsers,
        registerGetChatMessages, registerGetDraft, registerCreatePost,
        registerCreateUser, registerCreateCategory, registerCreateTopic,
        registerUpdateUser, registerUploadFile, registerSaveDraft,
        registerDeleteDraft, readToolNames, writeToolNames] <;>
      itauto
  refine ⟨hmain, ?_, rfl, rfl, rfl, rfl, rfl, rfl, rfl, rfl⟩
  intro haw hw hmem
  subst haw
  rcases hmain.mp hmem with hread | ⟨_, hsel⟩ | ⟨_, hadm⟩ | ⟨hfalse, _⟩
  · revert hread hw
    simp [readToolNames, writeToolNames]
    intro h
    rcases h with h | h | h | h | h | h | h | h <;> subst h <;> simp
  · subst hsel
    revert hw
    simp [writeToolNames]
  · subst hadm
    revert hw
    simp [writeToolNames]
  · exact Bool.false_ne_true hfalse

/-- Witness for C2 at a concrete flag combination. -/
theorem c2_registrySetAlgebra_witness :
    "discourse_create_post" ∈ registerAllTools true false true :=
  (c2_registrySetAlgebra true false true "discourse_create_post").1.mpr
    (Or.inr (Or.inr (Or.inr ⟨rfl, by simp [writeToolNames]⟩)))

/-! ## Access guard (`src/util/access.ts`) -/

/-- The resolved credential type of a site, as `siteState.getAuthType`
returns it (the `type` tag of the site's `AuthMode`). -/
inductive SiteAuthType where
  | noAuth
  | api_key
  | user_api_key
deriving DecidableEq

/-- The slice of `SiteState` the access guard reads: `getSiteBase()` and
`getAuthType(base)`. -/
structure SiteStateView where
  siteBase : Option String
  authType : String → SiteAuthType

/-- The error envelope built by `jsonError` (json_response.ts lines 72-78):
`{content: [{type: "text", text: JSON.stringify({error: message})}],
isError: true}`.  The serialized payload is represented structurally by the
message it carries. -/
structure ErrorEnvelope where
  errorMessage : String
  isError : Bool
deriving DecidableEq

/-- Embeds `jsonError(message)`: an envelope with `isError` set. -/
def jsonError (message : String) : ErrorEnvelope :=
  { errorMessage := message, isError := true }

/-- The `AuthRequirement` type of access.ts line 4. -/
inductive AuthRequirement where
  | any
  | api_key
deriving DecidableEq

/-- Embeds `requireSiteAuth` (access.ts lines 6-24): `some denial` models a returned
denial envelope, `none` the null result meaning access is allowed. -/
def requireSiteAuth (siteState : SiteStateView) (requirement : AuthRequirement) :
    Option ErrorEnvelope :=
  match siteState.siteBase with
  | Option.none =>
    some (jsonError "No site selected. Call discourse_select_site first.")
  | some base =>
    if siteState.authType base = SiteAuthType.noAuth then
      some (jsonError ("No auth configured for selected site (" ++ base
        ++ "). Add a matching auth_pairs entry and restart."))
    else if requirement = AuthRequirement.api_key
        ∧ siteState.authType base ≠ SiteAuthType.api_key then
      some (jsonError ("Admin API key required for selected site (" ++ base
        ++ ")."))
    else
      Option.none

/-- Embeds `requireWriteAccess` (access.ts lines 26-31). -/
def requireWriteAccess (siteState : SiteStateView) (allowWrites : Bool) :
    Option ErrorEnvelope :=
  if !allowWrites then
    some (jsonError
      "Writes are disabled. Run with --allow_writes --read_only=false to enable.")
  else
    requireSiteAuth siteState AuthRequirement.any

/-- Embeds `requireAdminAccess` (access.ts lines 33-35). -/
def requireAdminAccess (siteState : SiteStateView) : Option ErrorEnvelope :=
  requireSiteAuth siteState AuthRequirement.api_key

theorem requireSiteAuth_isError (s : SiteStateView) (req : AuthRequirement)
    (env : ErrorEnvelope) (h : requireSiteAuth s req = some env) :
    env.isError = true := by
  unfold requireSiteAuth at h
  split at h
  · cases h
    rfl
  · split at h
    · cases h
      rfl
    · split at h
      · cases h
        rfl
      · cases h

/-- Claim C7: `requireWriteAccess` returns a structured denial envelope with
`isError` set — a writes-disabled denial when `allowWrites` is false, else a
no-site denial when no site base is selected, else a denial when the selected
site's credential type is `noAuth` — and no denial otherwise;
`requireAdminAccess` performs the same site and credential checks but also
denies when the credential is the user-scoped variant rather than the
admin-style `api_key` variant. -/
theorem c7_accessGuard (st : SiteStateView) (b : String)
    (hb : st.siteBase = some b) :
    (∀ s : SiteStateView, requireWriteAccess s false
        = some (jsonError
          "Writes are disabled. Run with --allow_writes --read_only=false to enable."))
    ∧ (∀ s : SiteStateView, s.siteBase = Option.none →
        requireWriteAccess s true
          = some (jsonError "No site selected. Call discourse_select_site first.")
        ∧ requireAdminAccess s
          = some (jsonError "No site selected. Call discourse_select_site first."))
    ∧ (st.authType b = SiteAuthType.noAuth →
        requireWriteAccess st true
          = some (jsonError ("No auth configured for selected site (" ++ b
              ++ "). Add a matching auth_pairs entry and restart."))
        ∧ requireAdminAccess st
          = some (jsonError ("No auth configured for selected site (" ++ b
              ++ "). Add a matching auth_pairs entry and restart.")))
    ∧ (st.authType b ≠ SiteAuthType.noAuth →
        requireWriteAccess st true = Option.none)
    ∧ (st.authType b = SiteAuthType.user_api_key →
        requireAdminAccess st
          = some (jsonError ("Admin API key required for selected site (" ++ b
              ++ ").")))
    ∧ (st.authType b = SiteAuthType.api_key →
        requireAdminAccess st = Option.none)
    ∧ (∀ (s : SiteStateView) (aw : Bool) (env : ErrorEnvelope),
        requireWriteAccess s aw = some env → env.isError = true)
    ∧ (∀ (s : SiteStateView) (env : ErrorEnvelope),
        requireAdminAccess s = some env → env.isError = true) := by
  refine ⟨?_, ?_, ?_, ?_, ?_, ?_, ?_, ?_⟩
  · intro s
    simp [requireWriteAccess]
  · intro s hs
    constructor <;> simp [requireWriteAccess, requireAdminAccess,
      requireSiteAuth, hs]
  · intro ha
    constructor <;> simp [requireWriteAccess, requireAdminAccess,
      requireSiteAuth, hb, ha]
  · intro ha
    simp [requireWriteAccess, requireSiteAuth, hb, ha]
  · intro ha
    simp [requireAdminAccess, requireSiteAuth, hb, ha]
  · intro ha
    simp [requireAdminAccess, requireSiteAuth, hb, ha]
  · intro s aw env h
    rcases aw with _ | _
    · unfold requireWriteAccess at h
      simp only [Bool.not_false, if_true] at h
      cases h
      rfl
    · unfold requireWriteAccess at h
      simp only [Bool.not_true, Bool.false_eq_true, if_false] at h
      exact requireSiteAuth_isError s AuthRequirement.any env h
  · intro s env h
    exact requireSiteAuth_isError s AuthRequirement.api_key env h

/-- Witness for C7 at a concrete site state. -/
theorem c7_accessGuard_witness :
    requireWriteAccess
      ⟨some "https://example.com", fun _ => SiteAuthType.api_key⟩ false
      = some (jsonError
        "Writes are disabled. Run with --allow_writes --read_only=false to enable.") :=
  (c7_accessGuard ⟨some "https://example.com", fun _ => SiteAuthType.api_key⟩
    "https://example.com" rfl).1
    ⟨some "https://example.com", fun _ => SiteAuthType.api_key⟩

/-! ## Failure taxonomy (`src/http/client.ts`, the attempt closure of
`executeRequest`, lines 113-166) -/

/-- What one `fetch` call produces: a response with a status line, content
type and body text, or a thrown exception with its `name`, `message` and
optional `cause`. -/
inductive FetchResult where
  | response (status : Nat) (statusText contentType bodyText : String)
  | exn (name message : String) (cause : Option String)
deriving DecidableEq

/-- The error the attempt closure throws, one constructor per branch of its
classification: `HttpError` (status, message, best-effort body) for a non-2xx
response; the timeout message carrying `timeoutMs` for an `AbortError`; the
network message for a `TypeError` whose message is "fetch failed"; the
generic message otherwise.  The network branch (client.ts lines 147-154)
throws `new Error(detailedMsg)` whose text names only the method, the URL and
fixed boilerplate: `e.cause` is written to the log and discarded, so the
thrown network error carries no cause field. -/
inductive ThrownError where
  | httpStatus (status : Nat) (message : String) (body : String)
  | timeout (timeoutMs : Nat) (method url : String)
  | network (method url : String)
  | generic (name message : String)
deriving DecidableEq

/-- The four kinds of the taxonomy. -/
inductive ErrorKind where
  | status
  | timeout
  | network
  | generic
deriving DecidableEq

def ThrownError.kind : ThrownError → ErrorKind
  | ThrownError.httpStatus _ _ _ => ErrorKind.status
  | ThrownError.timeout _ _ _ => ErrorKind.timeout
  | ThrownError.network _ _ => ErrorKind.network
  | ThrownError.generic _ _ => ErrorKind.generic

/-- Embeds `res.ok` of WHATWG fetch: status in the 200-299 range. -/
def resOk (status : Nat) : Bool :=
  decide (200 ≤ status) && decide (status ≤ 299)

/-- The attempt closure of `executeRequest` (client.ts lines 113-166): a
non-ok response throws `HttpError` (rethrown unchanged by the catch); a
thrown `AbortError` becomes the timeout error; a thrown `TypeError` with
message "fetch failed" becomes the network error; anything else the generic
error.  The `safeJson` parse of the error body and the JSON/text decision on
a success body are abstracted: body text is carried as-is. -/
def attemptClassify (timeoutMs : Nat) (method url : String) :
    FetchResult → Except ThrownError String
  | FetchResult.response status statusText _ bodyText =>
    if resOk status then Except.ok bodyText
    else
      Except.error (ThrownError.httpStatus status
        ("HTTP " ++ toString status ++ " " ++ statusText) bodyText)
  | FetchResult.exn name message _cause =>
    if name = "AbortError" then
      Except.error (ThrownError.timeout timeoutMs method url)
    else if name = "TypeError" ∧ message = "fetch failed" then
      Except.error (ThrownError.network method url)
    else
      Except.error (ThrownError.generic name message)

/-- Claim C8 as amended: every failed attempt throws exactly one error of the
four-kind taxonomy — the `HttpError` status error (status, message, body) for
a non-2xx response, the timeout error (carrying `timeoutMs`) for an abort,
the network error (identifying method and URL, the underlying cause logged
but not attached) for a DNS/connection/TLS-level fetch failure, the generic
error otherwise — a status error and a network error never arise from the
same attempt, and the timeout kind is distinguishable from the network
kind. -/
theorem c8_failureTaxonomy (timeoutMs : Nat)
    (method url statusText ct bodyText name message : String) (status : Nat)
    (cause : Option String)
    (hnok : resOk status = false)
    (hname : name ≠ "AbortError")
    (hnet : ¬(name = "TypeError" ∧ message = "fetch failed")) :
    (∀ (fr : FetchResult) (e₁ e₂ : ThrownError),
        attemptClassify timeoutMs method url fr = Except.error e₁ →
        attemptClassify timeoutMs method url fr = Except.error e₂ → e₁ = e₂)
    ∧ attemptClassify timeoutMs method url
        (FetchResult.response status statusText ct bodyText)
        = Except.error (ThrownError.httpStatus status
            ("HTTP " ++ toString status ++ " " ++ statusText) bodyText)
    ∧ attemptClassify timeoutMs method url
        (FetchResult.exn "AbortError" message cause)
        = Except.error (ThrownError.timeout timeoutMs method url)
    ∧ attemptClassify timeoutMs method url
        (FetchResult.exn "TypeError" "fetch failed" cause)
        = Except.error (ThrownError.network method url)
    ∧ attemptClassify timeoutMs method url (FetchResult.exn name message cause)
        = Except.error (ThrownError.generic name message)
    ∧ (∀ (st : Nat) (sT c b : String) (e : ThrownError),
        attemptClassify timeoutMs method url (FetchResult.response st sT c b)
          = Except.error e → e.kind = ErrorKind.status)
    ∧ (ThrownError.timeout timeoutMs method url).kind
        ≠ (ThrownError.network method url).kind := by
  refine ⟨?_, ?_, ?_, ?_, ?_, ?_, ?_⟩
  · intro fr e₁ e₂ h₁ h₂
    rw [h₁] at h₂
    exact Except.error.inj h₂
  · simp [attemptClassify, hnok]
  · simp [attemptClassify]
  · simp [attemptClassify]
  · simp [attemptClassify, hname, hnet]
  · intro st sT c b e h
    rcases hok : resOk st with _ | _
    · simp [attemptClassify, hok] at h
      subst h
      rfl
    · simp [attemptClassify, hok] at h
  · simp [ThrownError.kind]

/-- Counterexample to claim C8 as stated: the thrown network error does not
carry the underlying cause.  Two fetch failures whose exceptions carry
different DNS/TLS causes produce identical thrown errors, because client.ts
lines 147-154 log `e.cause` and throw `new Error(detailedMsg)` without it. -/
theorem c8_causeDiscarded :
    attemptClassify 5000 "GET" "https://example.com/a"
        (FetchResult.exn "TypeError" "fetch failed"
          (some "getaddrinfo ENOTFOUND example.com"))
      = attemptClassify 5000 "GET" "https://example.com/a"
        (FetchResult.exn "TypeError" "fetch failed"
          (some "self signed certificate"))
    ∧ (some "getaddrinfo ENOTFOUND example.com" : Option String)
        ≠ some "self signed certificate" := by
  refine ⟨rfl, ?_⟩
  decide

/-- Witness for C8 at concrete inputs: a 404 response maps to the status
error. -/
theorem c8_failureTaxonomy_witness :
    attemptClassify 5000 "GET" "https://example.com/a"
      (FetchResult.response 404 "Not Found" "application/json" "missing")
      = Except.error (ThrownError.httpStatus 404 "HTTP 404 Not Found" "missing") :=
  (c8_failureTaxonomy 5000 "GET" "https://example.com/a" "Not Found"
    "application/json" "missing" "RangeError" "boom" 404 Option.none
    (by decide) (by decide) (by decide)).2.1

/-! ## Timeout sharing (`src/http/client.ts`, `executeRequest` lines 105-175
and `mergeSignals` lines 202-213) -/

/-- Events of one `executeRequest` call in program order: arming the per-call
timer (`setTimeout(() => controller.abort(), timeoutMs)`, line 110) and each
fetch attempt together with the id of the timer whose merged signal it uses
(line 119 passes the single `combinedSignal` built on line 111). -/
inductive TransportEvent where
  | armTimer (timerId fireAfterMs : Nat)
  | fetchAttempt (idx timerId : Nat)
deriving DecidableEq

def isArmTimer : TransportEvent → Bool
  | TransportEvent.armTimer _ _ => true
  | TransportEvent.fetchAttempt _ _ => false

/-- The event trace of an `executeRequest` call that makes `numAttempts`
attempts: the timer is armed once, before the first attempt, and every
attempt is issued with the same merged signal referencing that timer. -/
def executeRequestEvents (timeoutMs numAttempts : Nat) : List TransportEvent :=
  TransportEvent.armTimer 0 timeoutMs
    :: (List.range numAttempts).map (fun i => TransportEvent.fetchAttempt i 0)

/-- Embeds `mergeSignals` (client.ts lines 202-213): the combined signal is aborted
when either source signal is. -/
def mergedSignalAborted (callerAborted timerHasFired : Bool) : Bool :=
  callerAborted || timerHasFired

/-- The armed timer has fired once `timeoutMs` has elapsed since the start of
the logical request. -/
def timerFired (timeoutMs elapsedMs : Nat) : Bool :=
  decide (timeoutMs ≤ elapsedMs)

/-- Claim C9: the per-call timeout timer is armed exactly once per logical
request, before the first attempt, and its abort signal is shared by every
retry attempt, so `timeoutMs` bounds the entire retry sequence: once at
least `timeoutMs` has elapsed since the request started, the merged signal
of any attempt still in flight or subsequently started is aborted. -/
theorem c9_timerArmedOncePerRequest (timeoutMs numAttempts elapsedMs : Nat)
    (callerAborted : Bool) (h : timeoutMs ≤ elapsedMs) :
    ((executeRequestEvents timeoutMs numAttempts).filter isArmTimer).length = 1
    ∧ (executeRequestEvents timeoutMs numAttempts).head?
        = some (TransportEvent.armTimer 0 timeoutMs)
    ∧ (∀ i tid, TransportEvent.fetchAttempt i tid
        ∈ executeRequestEvents timeoutMs numAttempts → tid = 0)
    ∧ mergedSignalAborted callerAborted (timerFired timeoutMs elapsedMs)
        = true := by
  refine ⟨?_, rfl, ?_, ?_⟩
  · simp [executeRequestEvents, isArmTimer, List.filter_map, Function.comp]
  · intro i tid hmem
    simp [executeRequestEvents] at hmem
    obtain ⟨a, _, _, h0⟩ := hmem
    exact h0.symm
  · simp [mergedSignalAborted, timerFired, h]

/-- Witness for C9 at concrete inputs. -/
theorem c9_timerArmedOncePerRequest_witness :
    ((executeRequestEvents 5000 3).filter isArmTimer).length = 1 :=
  (c9_timerArmedOncePerRequest 5000 3 5000 false (by decide)).1

/-! ## Search truncation (`src/tools/builtin/search.ts`, `registerSearch`;
`src/util/json_response.ts`, `paginatedResponse` and `cleanMeta`) -/

/-- An upstream topic from `/search.json` — the fields the handler projects
plus one it ignores, so the projection is not the identity. -/
structure UpstreamTopic where
  id : Nat
  slug : String
  title : String
  posts_count : Nat
deriving DecidableEq

/-- The projected search result `{id, slug, title}` (search.ts lines 30-34). -/
structure SearchResult where
  id : Nat
  slug : String
  title : String
deriving DecidableEq

/-- Embeds `PaginationMeta` (json_response.ts lines 25-31); an `Option.none` field is
an undefined one; `next_cursor` distinguishes null (`some Option.none`) from
undefined. -/
structure PaginationMeta where
  total : Option Nat
  page : Option Nat
  limit : Option Nat
  has_more : Option Bool
  next_cursor : Option (Option String)
deriving DecidableEq

/-- Embeds `cleanMeta` (json_response.ts lines 50-58): each field is copied iff it
is defined. -/
def cleanMeta (meta : PaginationMeta) : PaginationMeta :=
  { total := match meta.total with
      | some t => some t
      | Option.none => Option.none
    page := match meta.page with
      | some p => some p
      | Option.none => Option.none
    limit := match meta.limit with
      | some l => some l
      | Option.none => Option.none
    has_more := match meta.has_more with
      | some hm => some hm
      | Option.none => Option.none
    next_cursor := match meta.next_cursor with
      | some nc => some nc
      | Option.none => Option.none }

/-- The shape `{results: [...], meta: {...}}` the search tool returns. -/
structure PaginatedSearch where
  results : List SearchResult
  meta : PaginationMeta
deriving DecidableEq

/-- Embeds `paginatedResponse` (json_response.ts lines 36-45) at the search tool's
collection name, which becomes the `results` field. -/
def paginatedResponse (items : List SearchResult) (meta : PaginationMeta) :
    PaginatedSearch :=
  { results := items, meta := cleanMeta meta }

/-- The result shaping of the `discourse_search` handler (search.ts lines
27-39): `topics = data?.topics || []`, truncation to `max_results`,
projection to `{id, slug, title}`, and meta
`{total: results.length, has_more: topics.length > max_results}`. -/
def searchHandler (dataTopics : Option (List UpstreamTopic))
    (max_results : Nat) : PaginatedSearch :=
  let topics := dataTopics.getD []
  let results := (topics.take max_results).map
    (fun t => SearchResult.mk t.id t.slug t.title)
  paginatedResponse results
    { total := some results.length
      page := Option.none
      limit := Option.none
      has_more := some (decide (max_results < topics.length))
      next_cursor := Option.none }

/-- The handler's destructuring default `max_results = 10` (search.ts
line 20). -/
def searchHandlerDefault (dataTopics : Option (List UpstreamTopic)) :
    PaginatedSearch :=
  searchHandler dataTopics 10

/-- Claim C10: a successful `discourse_search` call returns the upstream
topics list truncated to `max_results` entries (default 10) and projected to
`{id, slug, title}`; `meta.total` is the length of the truncated array — so
it differs from the upstream count whenever truncation happened — and
`meta.has_more` is true iff the upstream list was strictly longer than
`max_results`. -/
theorem c10_searchTruncation (topics : List UpstreamTopic)
    (max_results : Nat) (htrunc : max_results < topics.length) :
    (∀ (ts : List UpstreamTopic) (mr : Nat),
      (searchHandler (some ts) mr).results
        = (ts.take mr).map (fun t => SearchResult.mk t.id t.slug t.title)
      ∧ (searchHandler (some ts) mr).meta.total
          = some ((ts.take mr).length)
      ∧ (searchHandler (some ts) mr).meta.has_more
          = some (decide (mr < ts.length))
      ∧ searchHandlerDefault (some ts) = searchHandler (some ts) 10)
    ∧ (searchHandler (some topics) max_results).meta.total
        ≠ some topics.length
    ∧ (searchHandler (some topics) max_results).meta.has_more = some true := by
  refine ⟨?_, ?_, ?_⟩
  · intro ts mr
    refine ⟨?_, ?_, ?_, rfl⟩
    · simp [searchHandler, paginatedResponse, cleanMeta]
    · simp [searchHandler, paginatedResponse, cleanMeta]
    · simp [searchHandler, paginatedResponse, cleanMeta]
  · simp only [searchHandler, paginatedResponse, cleanMeta, Option.getD,
      List.length_map, List.length_take, Option.some.injEq, ne_eq]
    omega
  · simp [searchHandler, paginatedResponse, cleanMeta, htrunc]

/-- Witness for C10 at a concrete upstream list longer than `max_results`. -/
theorem c10_searchTruncation_witness :
    (searchHandler (some [UpstreamTopic.mk 1 "a" "A" 3,
        UpstreamTopic.mk 2 "b" "B" 4]) 1).meta.has_more = some true :=
  (c10_searchTruncation [UpstreamTopic.mk 1 "a" "A" 3,
    UpstreamTopic.mk 2 "b" "B" 4] 1 (by decide)).2.2
